import Mathlib

/-!
Verification development for the streaming-asr Conformer encoder sources.

Tensors are modelled as a dynamic shape (a list of dimension sizes) together
with a total index function into the rationals.  Every PyTorch operation used
by the sources is embedded as a shape-checked function returning an `Option`
(`none` models a runtime shape error).  Scalar functions that are not
rational-valued (the logistic sigmoid and the reciprocal square root used by
the normalization layers) are abstracted into a `ScalarOps` parameter; all
theorems hold for every instantiation, in particular for the real ones.
Dropout and batch normalization take an explicit `Mode` (train / eval) and an
explicit source of random masks, mirroring the PyTorch training/eval modes.
-/

/-- Training versus inference mode of a module (PyTorch `train()` / `eval()`). -/
inductive Mode where
  | train
  | eval
deriving DecidableEq

/-- Abstracted scalar functions: the logistic sigmoid and the reciprocal
square root.  They stand for the corresponding real functions; no claim in
this development depends on their values. -/
structure ScalarOps where
  sigmoid : ℚ → ℚ
  rsqrt : ℚ → ℚ

/-- N-dimensional tensor: a shape and a total index function.  Indices are
lists `[i0, i1, ...]`, one entry per axis; reads outside the shape are never
performed by the embedded operations. -/
structure Tensor where
  shape : List Nat
  data : List Nat → ℚ

/-- Sum of `f 0 + ... + f (n-1)`, by structural recursion (kept executable). -/
def sumTo : Nat → (Nat → ℚ) → ℚ
  | 0, _ => 0
  | n + 1, f => sumTo n f + f n

/-- Elementwise addition of same-shaped data (no shape check; used as the
payload of checked additions). -/
def addRaw (x y : Tensor) : Tensor :=
  ⟨x.shape, fun i => x.data i + y.data i⟩

/-- Tensor addition as the sources use `+`: defined when both operands have
the same shape, a shape error otherwise. -/
def tadd (x y : Tensor) : Option Tensor :=
  if y.shape = x.shape then some (addRaw x y) else none

/-- Scalar multiple of a tensor. -/
def smul (c : ℚ) (t : Tensor) : Tensor :=
  ⟨t.shape, fun i => c * t.data i⟩

/-- ReLU nonlinearity, elementwise. -/
def reluT (t : Tensor) : Tensor :=
  ⟨t.shape, fun i => max 0 (t.data i)⟩

/-- Swish / SiLU activation.  Modelled from the spec: the repository imports
`Swish` from an `activations` module that is absent from `src/`; spec §4.2
defines it as `x * sigmoid(x)`. -/
def swish (S : ScalarOps) (t : Tensor) : Tensor :=
  ⟨t.shape, fun i => t.data i * S.sigmoid (t.data i)⟩

/-- Dropout (`torch.nn.Dropout p`): in training mode it zeroes entries chosen
by the random mask and rescales the rest by `1 / (1 - p)`; in eval mode it is
the identity. -/
def dropoutT (mode : Mode) (mask : List Nat → Bool) (p : ℚ) (t : Tensor) : Tensor :=
  match mode with
  | .train => ⟨t.shape, fun i => if mask i then 0 else t.data i / (1 - p)⟩
  | .eval => t

/-- Default epsilon of `nn.LayerNorm` and `nn.BatchNorm1d` (1e-05). -/
def normEps : ℚ := 1 / 100000

/-- The layer normalization `nn.LayerNorm d` applied over the last axis:
requires the last dimension to equal `d`, subtracts the mean, multiplies by
the reciprocal square root of the biased variance plus epsilon, and applies
the learned affine parameters `w`, `b`. -/
def layerNorm (d : Nat) (eps : ℚ) (w b : Nat → ℚ) (S : ScalarOps) (x : Tensor) :
    Option Tensor :=
  match x.shape.getLast? with
  | some dd =>
    if dd = d then
      some ⟨x.shape, fun idx =>
        let pre := idx.dropLast
        let j := idx.getLastD 0
        let μ := sumTo d (fun k => x.data (pre ++ [k])) / (d : ℚ)
        let v := sumTo d (fun k => (x.data (pre ++ [k]) - μ) * (x.data (pre ++ [k]) - μ)) / (d : ℚ)
        (x.data idx - μ) * S.rsqrt (v + eps) * w j + b j⟩
    else none
  | none => none

/-- The linear layer `nn.Linear inF outF` applied to the last axis:
`y[..., o] = b o + Σ_i w o i * x[..., i]`. -/
def linearT (inF outF : Nat) (w : Nat → Nat → ℚ) (b : Nat → ℚ) (x : Tensor) :
    Option Tensor :=
  match x.shape.getLast? with
  | some dd =>
    if dd = inF then
      some ⟨x.shape.dropLast ++ [outF], fun idx =>
        let pre := idx.dropLast
        let o := idx.getLastD 0
        b o + sumTo inF (fun i => w o i * x.data (pre ++ [i]))⟩
    else none
  | none => none

/-- Grouped one-dimensional convolution (`nn.Conv1d`): input must have rank 3
`[batch, in_channels, length]`; the output length is
`(length + 2 * padding - kernel) / stride + 1` with implicit zero padding on
both sides.  With `groups = g`, output channel `oc` only reads the input
channels of its group. -/
def conv1d (cin cout k s p g : Nat) (w : Nat → Nat → Nat → ℚ) (bias : Nat → ℚ)
    (x : Tensor) : Option Tensor :=
  match x.shape with
  | [n, c, l] =>
    if c = cin ∧ 0 < k ∧ 0 < s ∧ 0 < g ∧ cin % g = 0 ∧ cout % g = 0 ∧ k ≤ l + 2 * p then
      let lout := (l + 2 * p - k) / s + 1
      some ⟨[n, cout, lout], fun idx =>
        match idx with
        | [b, oc, t] =>
          let cgrp := cin / g
          let base := oc / (cout / g) * cgrp
          bias oc + sumTo cgrp (fun ic => sumTo k (fun j =>
            let pos := t * s + j
            w oc ic j *
              (if pos < p ∨ p + l ≤ pos then 0 else x.data [b, base + ic, pos - p])))
        | _ => 0⟩
    else none
  | _ => none

/-- The gated linear unit `nn.GLU()` with its default `dim = -1`: splits the
last axis into two equal halves `a, b` and returns `a * sigmoid b`.  The last
axis must have even size. -/
def gluLast (S : ScalarOps) (x : Tensor) : Option Tensor :=
  match x.shape.getLast? with
  | some dd =>
    if dd % 2 = 0 then
      some ⟨x.shape.dropLast ++ [dd / 2], fun idx =>
        let pre := idx.dropLast
        let j := idx.getLastD 0
        x.data (pre ++ [j]) * S.sigmoid (x.data (pre ++ [j + dd / 2]))⟩
    else none
  | none => none

/-- The gated linear unit applied over the channel axis (`dim = 1`) of a
rank-3 tensor `[batch, channels, length]`: splits the channels into two equal
halves `a, b` and returns `a * sigmoid b`. -/
def gluChan (S : ScalarOps) (x : Tensor) : Option Tensor :=
  match x.shape with
  | [n, c, l] =>
    if c % 2 = 0 then
      some ⟨[n, c / 2, l], fun idx =>
        match idx with
        | [b, ch, t] => x.data [b, ch, t] * S.sigmoid (x.data [b, ch + c / 2, t])
        | _ => 0⟩
    else none
  | _ => none

/-- Batch normalization `nn.BatchNorm1d features` on a rank-3 tensor
`[batch, channels, length]`: in eval mode it uses the stored running
statistics; in training mode it uses the biased statistics of the current
batch, computed per channel over the batch and length axes. -/
def batchNorm1d (features : Nat) (eps : ℚ) (rm rv w b : Nat → ℚ) (S : ScalarOps)
    (mode : Mode) (x : Tensor) : Option Tensor :=
  match x.shape with
  | [n, c, l] =>
    if c = features then
      some ⟨[n, c, l], fun idx =>
        match idx with
        | [b0, ch, t] =>
          match mode with
          | .eval => (x.data [b0, ch, t] - rm ch) * S.rsqrt (rv ch + eps) * w ch + b ch
          | .train =>
            let cnt : ℚ := ((n * l : Nat) : ℚ)
            let μ := (sumTo n fun b1 => sumTo l fun t1 => x.data [b1, ch, t1]) / cnt
            let v := (sumTo n fun b1 => sumTo l fun t1 =>
              (x.data [b1, ch, t1] - μ) * (x.data [b1, ch, t1] - μ)) / cnt
            (x.data [b0, ch, t] - μ) * S.rsqrt (v + eps) * w ch + b ch
        | _ => 0⟩
    else none
  | _ => none

/-- Transposition of axes 1 and 2 of a rank-3 tensor (`x.transpose(1, 2)`). -/
def transpose12 (x : Tensor) : Option Tensor :=
  match x.shape with
  | [a, b, c] =>
    some ⟨[a, c, b], fun idx =>
      match idx with
      | [i, k, j] => x.data [i, j, k]
      | _ => 0⟩
  | _ => none

/-- Shift of a per-site random source, to give distinct dropout call sites
distinct masks. -/
def shiftR (r : Nat → List Nat → Bool) (k : Nat) : Nat → List Nat → Bool :=
  fun n => r (k + n)

/-- Configuration errors reported at module construction time. -/
inductive ConfigurationError where
  | notDivisible
  | evenKernel
deriving DecidableEq

namespace parts

/-- Modelled from the spec: the class `ResidualConnection` of
`src/parts/res_connection.py` is imported by the encoder block but the file
is absent from `src/`.  Spec §4.1: given a wrapped transformation `T` and a
scalar `half_step`, the gate computes `output = input + half_step * T(input)`;
a shape mismatch is signaled as an error, never silently broadcast. -/
def ResidualConnection (half_step : ℚ) (T : Tensor → Option Tensor) (x : Tensor) :
    Option Tensor :=
  (T x).bind fun y =>
    if y.shape = x.shape then some (addRaw x (smul half_step y)) else none

/-- Modelled from the spec: the class `FeedForwardNet` of
`src/parts/modules/conformer/feed_forward.py` is imported by the encoder
block but the file is absent from `src/`.  Spec §4.2: normalize, expand to
`in_feats * expansion_factor` with a linear projection, Swish, dropout,
project back, dropout again. -/
structure FeedForwardNet where
  in_feats : Nat
  out_feats : Nat
  expansion_factor : Nat
  ln_w : Nat → ℚ
  ln_b : Nat → ℚ
  w1 : Nat → Nat → ℚ
  b1 : Nat → ℚ
  w2 : Nat → Nat → ℚ
  b2 : Nat → ℚ
  p : ℚ

/-- Modelled from the spec (§4.2): the forward pass of the missing
`FeedForwardNet`. -/
def FeedForwardNet.forward (m : FeedForwardNet) (S : ScalarOps) (mode : Mode)
    (r : Nat → List Nat → Bool) (x : Tensor) : Option Tensor :=
  (layerNorm m.in_feats normEps m.ln_w m.ln_b S x).bind fun x1 =>
  (linearT m.in_feats (m.in_feats * m.expansion_factor) m.w1 m.b1 x1).bind fun x2 =>
  (linearT (m.in_feats * m.expansion_factor) m.out_feats m.w2 m.b2
      (dropoutT mode (r 0) m.p (swish S x2))).map fun x3 =>
  dropoutT mode (r 1) m.p x3

/-- The external `torch.nn.MultiheadAttention`, modelled from its documented
contract (spec §4.3): the embedding dimension must be divisible by the number
of heads (checked at construction), the output has the input's shape, and the
internal dropout is inactive in eval mode.  The attention computation itself
is abstracted into the deterministic `core` field. -/
structure MultiheadAttention where
  embed_dim : Nat
  num_heads : Nat
  dropout_p : ℚ
  core : Tensor → List Nat → ℚ

/-- Construction of `nn.MultiheadAttention embed_dim num_heads`: fails unless
`num_heads` divides `embed_dim` (the assertion torch raises at construction). -/
def MultiheadAttention.init (embed_dim num_heads : Nat) (p : ℚ)
    (core : Tensor → List Nat → ℚ) : Except ConfigurationError MultiheadAttention :=
  if 0 < num_heads ∧ embed_dim % num_heads = 0 then
    .ok ⟨embed_dim, num_heads, p, core⟩
  else
    .error .notDivisible

/-- Forward pass of the modelled `nn.MultiheadAttention` on self-attention
input (`mha(x, x, x)`): requires the last dimension to equal `embed_dim`,
preserves the shape, and applies the internal dropout per mode. -/
def MultiheadAttention.forward (m : MultiheadAttention) (mode : Mode)
    (mask : List Nat → Bool) (x : Tensor) : Option Tensor :=
  if x.shape.getLast? = some m.embed_dim then
    some (dropoutT mode mask m.dropout_p ⟨x.shape, m.core x⟩)
  else none

/-- Modelled from the spec: the class `ConvolutionModule` of
`src/parts/modules/conformer/convolution.py` is imported by the encoder block
(with keyword arguments `pointwise_kernel_size`, `depthwise_kernel_size`,
`stride`) but the file is absent from `src/`.  Spec §4.4 fixes its pipeline:
normalize, transpose to `[batch, channels, time]`, point-wise convolution
(kernel size 1) expanding to `2 × encoder_dim`, GLU over the channel axis,
depth-wise convolution with `groups = encoder_dim` and symmetric "same"
padding, batch normalization, Swish, point-wise convolution back to
`encoder_dim`, dropout, transpose back. -/
structure ConvolutionModule where
  in_channels : Nat
  out_channels : Nat
  pointwise_kernel_size : Nat
  depthwise_kernel_size : Nat
  stride : Nat
  ln_w : Nat → ℚ
  ln_b : Nat → ℚ
  pw1_w : Nat → Nat → Nat → ℚ
  pw1_b : Nat → ℚ
  dw_w : Nat → Nat → Nat → ℚ
  dw_b : Nat → ℚ
  bn_rm : Nat → ℚ
  bn_rv : Nat → ℚ
  bn_w : Nat → ℚ
  bn_b : Nat → ℚ
  pw2_w : Nat → Nat → Nat → ℚ
  pw2_b : Nat → ℚ
  p : ℚ

/-- Weight bundle for the spec-modelled convolution sub-block. -/
structure ConvolutionModuleWeights where
  ln_w : Nat → ℚ
  ln_b : Nat → ℚ
  pw1_w : Nat → Nat → Nat → ℚ
  pw1_b : Nat → ℚ
  dw_w : Nat → Nat → Nat → ℚ
  dw_b : Nat → ℚ
  bn_rm : Nat → ℚ
  bn_rv : Nat → ℚ
  bn_w : Nat → ℚ
  bn_b : Nat → ℚ
  pw2_w : Nat → Nat → Nat → ℚ
  pw2_b : Nat → ℚ

/-- Modelled from the spec: construction of the missing convolution
sub-block.  Spec §4.5 requires an even `depthwise_kernel_size` to be rejected
as a configuration error at construction time (no symmetric "same" padding
exists for it). -/
def ConvolutionModule.init (in_channels out_channels pw_ksize dw_ksize stride : Nat)
    (p : ℚ) (W : ConvolutionModuleWeights) :
    Except ConfigurationError ConvolutionModule :=
  if dw_ksize % 2 = 1 then
    .ok ⟨in_channels, out_channels, pw_ksize, dw_ksize, stride, W.ln_w, W.ln_b,
      W.pw1_w, W.pw1_b, W.dw_w, W.dw_b, W.bn_rm, W.bn_rv, W.bn_w, W.bn_b,
      W.pw2_w, W.pw2_b, p⟩
  else
    .error .evenKernel

/-- Modelled from the spec (§4.4): forward pass of the missing convolution
sub-block on a `[batch, time, encoder_dim]` input; every stage preserves the
time length (point-wise kernels have size 1, the depth-wise convolution uses
symmetric padding `(k - 1) / 2`). -/
def ConvolutionModule.forward (m : ConvolutionModule) (S : ScalarOps) (mode : Mode)
    (r : Nat → List Nat → Bool) (x : Tensor) : Option Tensor :=
  let d := m.in_channels
  (layerNorm d normEps m.ln_w m.ln_b S x).bind fun x1 =>
  (transpose12 x1).bind fun x2 =>
  (conv1d d (2 * d) 1 1 0 1 m.pw1_w m.pw1_b x2).bind fun x3 =>
  (gluChan S x3).bind fun x4 =>
  (conv1d d d m.depthwise_kernel_size 1 ((m.depthwise_kernel_size - 1) / 2) d
      m.dw_w m.dw_b x4).bind fun x5 =>
  (batchNorm1d d normEps m.bn_rm m.bn_rv m.bn_w m.bn_b S mode x5).bind fun x6 =>
  (conv1d d d 1 1 0 1 m.pw2_w m.pw2_b (swish S x6)).bind fun x7 =>
  transpose12 (dropoutT mode (r 0) m.p x7)

end parts

namespace parts

/-- Configuration record of `ConformerBlock.__init__`
(`src/parts/modules/conformer/conformer_block.py`, lines 34-42), with the
source's parameter names. -/
structure ConformerBlockCfg where
  dropout : ℚ
  attention_heads : Nat
  encoder_dim : Nat
  pw_ksize : Nat
  dw_ksize : Nat
  expansion_factor : Nat
  conv_model_stride : Nat
  apply_conv_first : Bool

/-- Learned parameters and abstract cores of one encoder block (allocated at
construction, immutable during a forward pass). -/
structure ConformerBlockWeights where
  ff1_ln_w : Nat → ℚ
  ff1_ln_b : Nat → ℚ
  ff1_w1 : Nat → Nat → ℚ
  ff1_b1 : Nat → ℚ
  ff1_w2 : Nat → Nat → ℚ
  ff1_b2 : Nat → ℚ
  mha_core : Tensor → List Nat → ℚ
  conv : ConvolutionModuleWeights
  ff2_ln_w : Nat → ℚ
  ff2_ln_b : Nat → ℚ
  ff2_w1 : Nat → Nat → ℚ
  ff2_b1 : Nat → ℚ
  ff2_w2 : Nat → Nat → ℚ
  ff2_b2 : Nat → ℚ
  ln_w : Nat → ℚ
  ln_b : Nat → ℚ

/-- The encoder block of `src/parts/modules/conformer/conformer_block.py`:
its constructed sub-modules (`ff1`, `mha`, `conv_module`, `ff2`), the single
shared `layer_norm` parameters, and the ordering flag. -/
structure ConformerBlock where
  conv_first : Bool
  ff1 : FeedForwardNet
  mha : MultiheadAttention
  conv_module : ConvolutionModule
  ff2 : FeedForwardNet
  ln_dim : Nat
  ln_w : Nat → ℚ
  ln_b : Nat → ℚ
  dropout_p : ℚ

/-- The block record `ConformerBlock.__init__` produces when every sub-module
constructor succeeds: `ff1`/`ff2` wrapped with half-step 0.5 (the wrapping is
applied in `forward`), the convolution module with half-step 1.0, one shared
`LayerNorm encoder_dim`. -/
def mkConformerBlock (cfg : ConformerBlockCfg) (W : ConformerBlockWeights) :
    ConformerBlock :=
  ⟨cfg.apply_conv_first,
   ⟨cfg.encoder_dim, cfg.encoder_dim, cfg.expansion_factor, W.ff1_ln_w, W.ff1_ln_b,
     W.ff1_w1, W.ff1_b1, W.ff1_w2, W.ff1_b2, cfg.dropout⟩,
   ⟨cfg.encoder_dim, cfg.attention_heads, cfg.dropout, W.mha_core⟩,
   ⟨cfg.encoder_dim, cfg.encoder_dim, cfg.pw_ksize, cfg.dw_ksize,
     cfg.conv_model_stride, W.conv.ln_w, W.conv.ln_b, W.conv.pw1_w, W.conv.pw1_b,
     W.conv.dw_w, W.conv.dw_b, W.conv.bn_rm, W.conv.bn_rv, W.conv.bn_w, W.conv.bn_b,
     W.conv.pw2_w, W.conv.pw2_b, cfg.dropout⟩,
   ⟨cfg.encoder_dim, cfg.encoder_dim, cfg.expansion_factor, W.ff2_ln_w, W.ff2_ln_b,
     W.ff2_w1, W.ff2_b1, W.ff2_w2, W.ff2_b2, cfg.dropout⟩,
   cfg.encoder_dim, W.ln_w, W.ln_b, cfg.dropout⟩

/-- Construction of the encoder block (`ConformerBlock.__init__`): the
sub-module constructors run in source order; `nn.MultiheadAttention` rejects
an `encoder_dim` not divisible by `attention_heads`, and the convolution
sub-block rejects an even `depthwise_kernel_size`.  A failure surfaces as a
configuration error at construction time. -/
def ConformerBlock.init (cfg : ConformerBlockCfg) (W : ConformerBlockWeights) :
    Except ConfigurationError ConformerBlock :=
  (MultiheadAttention.init cfg.encoder_dim cfg.attention_heads cfg.dropout
      W.mha_core).bind fun _ =>
  (ConvolutionModule.init cfg.encoder_dim cfg.encoder_dim cfg.pw_ksize cfg.dw_ksize
      cfg.conv_model_stride cfg.dropout W.conv).bind fun _ =>
  .ok (mkConformerBlock cfg W)

/-- Lines 92-97 of `ConformerBlock.forward`: `identity = x`, layer norm, MHA
on the normalized tensor, dropout, and `identity + (1. * out)`. -/
def ConformerBlock.mhaStage (b : ConformerBlock) (S : ScalarOps) (mode : Mode)
    (r : Nat → List Nat → Bool) (x : Tensor) : Option Tensor :=
  (layerNorm b.ln_dim normEps b.ln_w b.ln_b S x).bind fun nx =>
  (MultiheadAttention.forward b.mha mode (r 4) nx).bind fun out =>
  tadd x (smul 1 (dropoutT mode (r 5) b.dropout_p out))

/-- The forward pass of `ConformerBlock` (lines 85-110): first feed-forward
residual, optionally the convolution residual (when `conv_first`), the MHA
stage, optionally the convolution residual (when not `conv_first`), the
second feed-forward residual, and the final layer normalization. -/
def ConformerBlock.forward (b : ConformerBlock) (S : ScalarOps) (mode : Mode)
    (r : Nat → List Nat → Bool) (x : Tensor) : Option Tensor :=
  (ResidualConnection (1 / 2) (FeedForwardNet.forward b.ff1 S mode (shiftR r 0)) x).bind fun x1 =>
  (if b.conv_first then
      ResidualConnection 1 (ConvolutionModule.forward b.conv_module S mode (shiftR r 2)) x1
    else some x1).bind fun x2 =>
  (ConformerBlock.mhaStage b S mode r x2).bind fun x3 =>
  (if b.conv_first then some x3
    else
      ResidualConnection 1 (ConvolutionModule.forward b.conv_module S mode (shiftR r 2)) x3).bind fun x4 =>
  (ResidualConnection (1 / 2) (FeedForwardNet.forward b.ff2 S mode (shiftR r 6)) x4).bind fun x5 =>
  layerNorm b.ln_dim normEps b.ln_w b.ln_b S x5

/-- The MHA stage with its pre-attention normalization abstracted into a
parameter (used to state which normalization instance `forward` uses). -/
def ConformerBlock.mhaStageWith (b : ConformerBlock) (n1 : Tensor → Option Tensor)
    (mode : Mode) (r : Nat → List Nat → Bool) (x : Tensor) : Option Tensor :=
  (n1 x).bind fun nx =>
  (MultiheadAttention.forward b.mha mode (r 4) nx).bind fun out =>
  tadd x (smul 1 (dropoutT mode (r 5) b.dropout_p out))

/-- The forward pass with the pre-attention normalization `n1` and the final
normalization `n2` abstracted into parameters. -/
def ConformerBlock.forwardNorms (b : ConformerBlock) (n1 n2 : Tensor → Option Tensor)
    (S : ScalarOps) (mode : Mode) (r : Nat → List Nat → Bool) (x : Tensor) :
    Option Tensor :=
  (ResidualConnection (1 / 2) (FeedForwardNet.forward b.ff1 S mode (shiftR r 0)) x).bind fun x1 =>
  (if b.conv_first then
      ResidualConnection 1 (ConvolutionModule.forward b.conv_module S mode (shiftR r 2)) x1
    else some x1).bind fun x2 =>
  (ConformerBlock.mhaStageWith b n1 mode r x2).bind fun x3 =>
  (if b.conv_first then some x3
    else
      ResidualConnection 1 (ConvolutionModule.forward b.conv_module S mode (shiftR r 2)) x3).bind fun x4 =>
  (ResidualConnection (1 / 2) (FeedForwardNet.forward b.ff2 S mode (shiftR r 6)) x4).bind fun x5 =>
  n2 x5

end parts

namespace conformer

/-- The class `PointWise1DConv` of `src/conformer/convolution.py` (lines
8-19): a plain `nn.Conv1d` with the stored configuration. -/
structure PointWise1DConv where
  in_channels : Nat
  out_channels : Nat
  kernel_size : Nat
  stride : Nat
  padding : Nat
  w : Nat → Nat → Nat → ℚ
  b : Nat → ℚ

/-- Forward pass of `PointWise1DConv` (`self.pconv(x)`, groups = 1). -/
def PointWise1DConv.forward (m : PointWise1DConv) (x : Tensor) : Option Tensor :=
  conv1d m.in_channels m.out_channels m.kernel_size m.stride m.padding 1 m.w m.b x

/-- The class `DepthWise1DConv` of `src/conformer/convolution.py` (lines
21-34): an `nn.Conv1d` with `groups = in_channels`. -/
structure DepthWise1DConv where
  in_channels : Nat
  out_channels : Nat
  kernel_size : Nat
  stride : Nat
  padding : Nat
  w : Nat → Nat → Nat → ℚ
  b : Nat → ℚ

/-- Forward pass of `DepthWise1DConv` (`self.dw_conv(x)`). -/
def DepthWise1DConv.forward (m : DepthWise1DConv) (x : Tensor) : Option Tensor :=
  conv1d m.in_channels m.out_channels m.kernel_size m.stride m.padding
    m.in_channels m.w m.b x

/-- The class `ConvSubSampling` of `src/conformer/convolution.py` (lines
36-55): two stacked strided `nn.Conv1d` layers, each followed by `nn.ReLU`. -/
structure ConvSubSampling where
  in_channels : Nat
  out_channels : Nat
  kernel_size : Nat
  stride : Nat
  padding : Nat
  w1 : Nat → Nat → Nat → ℚ
  b1 : Nat → ℚ
  w2 : Nat → Nat → Nat → ℚ
  b2 : Nat → ℚ

/-- Forward pass of `ConvSubSampling` (`self.chain(x)`): first convolution,
ReLU, second convolution, ReLU. -/
def ConvSubSampling.forward (m : ConvSubSampling) (x : Tensor) : Option Tensor :=
  ((conv1d m.in_channels m.out_channels m.kernel_size m.stride m.padding 1
      m.w1 m.b1 x).map reluT).bind fun x1 =>
  (conv1d m.out_channels m.out_channels m.kernel_size m.stride m.padding 1
      m.w2 m.b2 x1).map reluT

/-- The class `ConvolutionModule` of `src/conformer/convolution.py` (lines
58-97), with the sub-modules its `__init__` actually builds. -/
structure ConvolutionModule where
  in_channels : Nat
  out_channels : Nat
  stride : Nat
  padding : Nat
  ln_w : Nat → ℚ
  ln_b : Nat → ℚ
  point_wise1 : PointWise1DConv
  dw_conv : DepthWise1DConv
  bn_rm : Nat → ℚ
  bn_rv : Nat → ℚ
  bn_w : Nat → ℚ
  bn_b : Nat → ℚ
  point_wise2 : PointWise1DConv
  p : ℚ

/-- Weight bundle for `conformer.ConvolutionModule`. -/
structure ConvolutionModuleWeights where
  ln_w : Nat → ℚ
  ln_b : Nat → ℚ
  pw1_w : Nat → Nat → Nat → ℚ
  pw1_b : Nat → ℚ
  dw_w : Nat → Nat → Nat → ℚ
  dw_b : Nat → ℚ
  bn_rm : Nat → ℚ
  bn_rv : Nat → ℚ
  bn_w : Nat → ℚ
  bn_b : Nat → ℚ
  pw2_w : Nat → Nat → Nat → ℚ
  pw2_b : Nat → ℚ

/-- `ConvolutionModule.__init__ (in_channels, out_channels, stride, padding,
bias)`: a `LayerNorm in_channels`; `point_wise1` with kernel size 1, the
given stride and padding, mapping `in_channels → out_channels`; `nn.GLU()`
(default last axis); `dw_conv` with the hard-coded kernel size 1, default
stride 1, the given padding, mapping `out_channels → out_channels`;
`BatchNorm1d out_channels`; Swish; `point_wise2` with kernel size 1, stride
1, padding 0; `Dropout 0.1`. -/
def ConvolutionModule.init (in_channels out_channels stride padding : Nat)
    (W : ConvolutionModuleWeights) : ConvolutionModule :=
  ⟨in_channels, out_channels, stride, padding, W.ln_w, W.ln_b,
   ⟨in_channels, out_channels, 1, stride, padding, W.pw1_w, W.pw1_b⟩,
   ⟨out_channels, out_channels, 1, 1, padding, W.dw_w, W.dw_b⟩,
   W.bn_rm, W.bn_rv, W.bn_w, W.bn_b,
   ⟨out_channels, out_channels, 1, 1, 0, W.pw2_w, W.pw2_b⟩,
   1 / 10⟩

/-- The `self.conv_module` sequential chain of `ConvolutionModule` (lines
87-91): layer norm, `point_wise1`, GLU, `dw_conv`, batch norm, Swish,
`point_wise2`, dropout. -/
def ConvolutionModule.conv_module (m : ConvolutionModule) (S : ScalarOps)
    (mode : Mode) (r : Nat → List Nat → Bool) (x : Tensor) : Option Tensor :=
  (layerNorm m.in_channels normEps m.ln_w m.ln_b S x).bind fun x1 =>
  (m.point_wise1.forward x1).bind fun x2 =>
  (gluLast S x2).bind fun x3 =>
  (m.dw_conv.forward x3).bind fun x4 =>
  (batchNorm1d m.out_channels normEps m.bn_rm m.bn_rv m.bn_w m.bn_b S mode x4).bind fun x5 =>
  (m.point_wise2.forward (swish S x5)).map fun x6 =>
  dropoutT mode (r 0) m.p x6

/-- `ConvolutionModule.forward` (lines 93-97): `identity = x`, the sequential
chain, then `identity + conv_output` — the residual addition happens inside
the module. -/
def ConvolutionModule.forward (m : ConvolutionModule) (S : ScalarOps) (mode : Mode)
    (r : Nat → List Nat → Bool) (x : Tensor) : Option Tensor :=
  (m.conv_module S mode r x).bind fun conv_output => tadd x conv_output

end conformer

/-- Concrete scalar functions used by witnesses (any instantiation works). -/
def S0 : ScalarOps := ⟨fun q => q, fun q => q⟩

/-- Concrete random mask source used by witnesses. -/
def r0 : Nat → List Nat → Bool := fun _ _ => false

/-- All-zero tensor of a given shape. -/
def zerosT (s : List Nat) : Tensor := ⟨s, fun _ => 0⟩

/-- Concrete rank-3 test tensor of shape `[2, 3, 4]`. -/
def X0 : Tensor := zerosT [2, 3, 4]

/-- Zero weight bundle for `conformer.ConvolutionModule`. -/
def W9 : conformer.ConvolutionModuleWeights :=
  ⟨fun _ => 0, fun _ => 0, fun _ _ _ => 0, fun _ => 0, fun _ _ _ => 0, fun _ => 0,
   fun _ => 0, fun _ => 0, fun _ => 0, fun _ => 0, fun _ _ _ => 0, fun _ => 0⟩

/-- A `conformer.ConvolutionModule` whose pipeline succeeds: `in_channels =
out_channels = 6`, `stride = 1`, `padding = 1`, applied to `[1, 6, 6]`
inputs. -/
def M9 : conformer.ConvolutionModule := conformer.ConvolutionModule.init 6 6 1 1 W9

/-- Concrete input for `M9`. -/
def X9 : Tensor := zerosT [1, 6, 6]

/-- Zero weight bundle for the spec-modelled convolution sub-block. -/
def Wc0 : parts.ConvolutionModuleWeights :=
  ⟨fun _ => 0, fun _ => 0, fun _ _ _ => 0, fun _ => 0, fun _ _ _ => 0, fun _ => 0,
   fun _ => 0, fun _ => 0, fun _ => 0, fun _ => 0, fun _ _ _ => 0, fun _ => 0⟩

/-- Zero weight bundle for a whole encoder block. -/
def Wb0 : parts.ConformerBlockWeights :=
  ⟨fun _ => 0, fun _ => 0, fun _ _ => 0, fun _ => 0, fun _ _ => 0, fun _ => 0,
   fun _ _ => 0, Wc0,
   fun _ => 0, fun _ => 0, fun _ _ => 0, fun _ => 0, fun _ _ => 0, fun _ => 0,
   fun _ => 0, fun _ => 0⟩

/-- Small valid block configuration: `encoder_dim = 4`, `attention_heads =
2`, `depthwise_kernel_size = 3`, `conv_first = false`. -/
def cfg0 : parts.ConformerBlockCfg := ⟨1 / 10, 2, 4, 1, 3, 4, 1, false⟩

/-- Concrete input of shape `[batch, time, encoder_dim] = [1, 2, 4]`. -/
def X2 : Tensor := zerosT [1, 2, 4]

theorem getLast_triple (a b c : Nat) : ([a, b, c] : List Nat).getLast? = some c := rfl

theorem dropLast_triple (a b c : Nat) : ([a, b, c] : List Nat).dropLast = [a, b] := rfl

theorem swish_shape (S : ScalarOps) (t : Tensor) : (swish S t).shape = t.shape := rfl

theorem reluT_shape (t : Tensor) : (reluT t).shape = t.shape := rfl

theorem smul_shape (c : ℚ) (t : Tensor) : (smul c t).shape = t.shape := rfl

theorem addRaw_shape (x y : Tensor) : (addRaw x y).shape = x.shape := rfl

theorem dropoutT_shape (mode : Mode) (mask : List Nat → Bool) (p : ℚ) (t : Tensor) :
    (dropoutT mode mask p t).shape = t.shape := by
  cases mode <;> rfl

theorem smul_one (t : Tensor) : smul 1 t = t := by
  simp [smul]

theorem layerNorm_shape (d : Nat) (eps : ℚ) (w b' : Nat → ℚ) (S : ScalarOps)
    (x : Tensor) (h : x.shape.getLast? = some d) :
    ∃ y, layerNorm d eps w b' S x = some y ∧ y.shape = x.shape := by
  unfold layerNorm
  rw [h]
  simp

theorem linearT_shape (inF outF : Nat) (w : Nat → Nat → ℚ) (b' : Nat → ℚ)
    (x : Tensor) (h : x.shape.getLast? = some inF) :
    ∃ y, linearT inF outF w b' x = some y ∧ y.shape = x.shape.dropLast ++ [outF] := by
  unfold linearT
  rw [h]
  simp

theorem conv1d_shape (cin cout k s p g : Nat) (w : Nat → Nat → Nat → ℚ)
    (bias : Nat → ℚ) (x : Tensor) (n c l : Nat) (h : x.shape = [n, c, l])
    (hc : c = cin) (hk : 0 < k) (hs : 0 < s) (hg : 0 < g) (h1 : cin % g = 0)
    (h2 : cout % g = 0) (hl : k ≤ l + 2 * p) :
    ∃ y, conv1d cin cout k s p g w bias x = some y ∧
      y.shape = [n, cout, (l + 2 * p - k) / s + 1] := by
  unfold conv1d
  rw [h]
  simp [hc, hk, hs, hg, h1, h2, hl]

theorem gluChan_shape (S : ScalarOps) (x : Tensor) (n c l : Nat)
    (h : x.shape = [n, c, l]) (he : c % 2 = 0) :
    ∃ y, gluChan S x = some y ∧ y.shape = [n, c / 2, l] := by
  unfold gluChan
  rw [h]
  simp [he]

theorem transpose12_shape (x : Tensor) (a b c : Nat) (h : x.shape = [a, b, c]) :
    ∃ y, transpose12 x = some y ∧ y.shape = [a, c, b] := by
  unfold transpose12
  rw [h]
  exact ⟨_, rfl, rfl⟩

theorem batchNorm1d_shape (features : Nat) (eps : ℚ) (rm rv w b' : Nat → ℚ)
    (S : ScalarOps) (mode : Mode) (x : Tensor) (n c l : Nat)
    (h : x.shape = [n, c, l]) (hc : c = features) :
    ∃ y, batchNorm1d features eps rm rv w b' S mode x = some y ∧
      y.shape = [n, c, l] := by
  unfold batchNorm1d
  rw [h]
  simp [hc]

theorem tadd_shape (x y : Tensor) (h : y.shape = x.shape) :
    ∃ z, tadd x y = some z ∧ z.shape = x.shape := by
  simp [tadd, h, addRaw]

theorem resCon_shape (h' : ℚ) (T' : Tensor → Option Tensor) (x y : Tensor)
    (hT : T' x = some y) (hs : y.shape = x.shape) :
    ∃ z, parts.ResidualConnection h' T' x = some z ∧ z.shape = x.shape := by
  simp [parts.ResidualConnection, hT, hs, addRaw, smul]

theorem ffn_shape (m : parts.FeedForwardNet) (S : ScalarOps) (mode : Mode)
    (r : Nat → List Nat → Bool) (x : Tensor) (B T : Nat)
    (h : x.shape = [B, T, m.in_feats]) :
    ∃ y, m.forward S mode r x = some y ∧ y.shape = [B, T, m.out_feats] := by
  obtain ⟨y1, hy1, hs1⟩ := layerNorm_shape m.in_feats normEps m.ln_w m.ln_b S x
    (by rw [h]; rfl)
  obtain ⟨y2, hy2, hs2⟩ := linearT_shape m.in_feats (m.in_feats * m.expansion_factor)
    m.w1 m.b1 y1 (by rw [hs1, h]; rfl)
  have hs2' : y2.shape = [B, T, m.in_feats * m.expansion_factor] := by
    rw [hs2, hs1, h]; rfl
  obtain ⟨y3, hy3, hs3⟩ := linearT_shape (m.in_feats * m.expansion_factor) m.out_feats
    m.w2 m.b2 (dropoutT mode (r 0) m.p (swish S y2))
    (by rw [dropoutT_shape, swish_shape, hs2']; rfl)
  refine ⟨dropoutT mode (r 1) m.p y3, ?_, ?_⟩
  · simp [parts.FeedForwardNet.forward, hy1, hy2, hy3]
  · rw [dropoutT_shape, hs3, dropoutT_shape, swish_shape, hs2']; rfl

theorem mha_shape (m : parts.MultiheadAttention) (mode : Mode)
    (mask : List Nat → Bool) (x : Tensor)
    (h : x.shape.getLast? = some m.embed_dim) :
    ∃ y, m.forward mode mask x = some y ∧ y.shape = x.shape := by
  unfold parts.MultiheadAttention.forward
  rw [if_pos h]
  exact ⟨_, rfl, by rw [dropoutT_shape]⟩

theorem parts_conv_shape (m : parts.ConvolutionModule) (S : ScalarOps) (mode : Mode)
    (r : Nat → List Nat → Bool) (x : Tensor) (B T : Nat)
    (hodd : m.depthwise_kernel_size % 2 = 1) (hd : 0 < m.in_channels) (hT : 0 < T)
    (h : x.shape = [B, T, m.in_channels]) :
    ∃ y, m.forward S mode r x = some y ∧ y.shape = [B, T, m.in_channels] := by
  obtain ⟨y1, hy1, hs1⟩ := layerNorm_shape m.in_channels normEps m.ln_w m.ln_b S x
    (by rw [h]; rfl)
  have hs1' : y1.shape = [B, T, m.in_channels] := by rw [hs1, h]
  obtain ⟨y2, hy2, hs2⟩ := transpose12_shape y1 B T m.in_channels hs1'
  obtain ⟨y3, hy3, hs3⟩ := conv1d_shape m.in_channels (2 * m.in_channels) 1 1 0 1
    m.pw1_w m.pw1_b y2 B m.in_channels T hs2 rfl (by omega) (by omega) (by omega)
    (Nat.mod_one _) (Nat.mod_one _) (by omega)
  have hs3' : y3.shape = [B, 2 * m.in_channels, T] := by rw [hs3]; simp; omega
  obtain ⟨y4, hy4, hs4⟩ := gluChan_shape S y3 B (2 * m.in_channels) T hs3' (by omega)
  have hs4' : y4.shape = [B, m.in_channels, T] := by rw [hs4]; simp
  obtain ⟨y5, hy5, hs5⟩ := conv1d_shape m.in_channels m.in_channels
    m.depthwise_kernel_size 1 ((m.depthwise_kernel_size - 1) / 2) m.in_channels
    m.dw_w m.dw_b y4 B m.in_channels T hs4' rfl (by omega) (by omega) hd
    (Nat.mod_self _) (Nat.mod_self _) (by omega)
  have hs5' : y5.shape = [B, m.in_channels, T] := by rw [hs5]; simp; omega
  obtain ⟨y6, hy6, hs6⟩ := batchNorm1d_shape m.in_channels normEps m.bn_rm m.bn_rv
    m.bn_w m.bn_b S mode y5 B m.in_channels T hs5' rfl
  obtain ⟨y7, hy7, hs7⟩ := conv1d_shape m.in_channels m.in_channels 1 1 0 1
    m.pw2_w m.pw2_b (swish S y6) B m.in_channels T (by rw [swish_shape]; exact hs6)
    rfl (by omega) (by omega) (by omega) (Nat.mod_one _) (Nat.mod_one _) (by omega)
  have hs7' : y7.shape = [B, m.in_channels, T] := by rw [hs7]; simp; omega
  obtain ⟨y8, hy8, hs8⟩ := transpose12_shape (dropoutT mode (r 0) m.p y7) B
    m.in_channels T (by rw [dropoutT_shape]; exact hs7')
  refine ⟨y8, ?_, hs8⟩
  simp [parts.ConvolutionModule.forward, hy1, hy2, hy3, hy4, hy5, hy6, hy7, hy8]

theorem mhaStage_shape (b : parts.ConformerBlock) (S : ScalarOps) (mode : Mode)
    (r : Nat → List Nat → Bool) (x : Tensor) (B T : Nat)
    (hmha : b.mha.embed_dim = b.ln_dim) (h : x.shape = [B, T, b.ln_dim]) :
    ∃ y, b.mhaStage S mode r x = some y ∧ y.shape = x.shape := by
  obtain ⟨nx, h1, hs1⟩ := layerNorm_shape b.ln_dim normEps b.ln_w b.ln_b S x
    (by rw [h]; rfl)
  obtain ⟨o, h2, hs2⟩ := mha_shape b.mha mode (r 4) nx (by rw [hs1, h, hmha]; rfl)
  obtain ⟨z, h3, hs3⟩ := tadd_shape x (smul 1 (dropoutT mode (r 5) b.dropout_p o))
    (by rw [smul_shape, dropoutT_shape, hs2, hs1])
  exact ⟨z, by simp [parts.ConformerBlock.mhaStage, h1, h2, h3], hs3⟩

theorem block_forward_shape (b : parts.ConformerBlock) (S : ScalarOps) (mode : Mode)
    (r : Nat → List Nat → Bool) (B T : Nat) (x : Tensor)
    (hff1i : b.ff1.in_feats = b.ln_dim) (hff1o : b.ff1.out_feats = b.ln_dim)
    (hff2i : b.ff2.in_feats = b.ln_dim) (hff2o : b.ff2.out_feats = b.ln_dim)
    (hmha : b.mha.embed_dim = b.ln_dim) (hconv : b.conv_module.in_channels = b.ln_dim)
    (hodd : b.conv_module.depthwise_kernel_size % 2 = 1) (hd : 0 < b.ln_dim)
    (hT : 0 < T) (hx : x.shape = [B, T, b.ln_dim]) :
    ∃ y, b.forward S mode r x = some y ∧ y.shape = x.shape := by
  have convT : ∀ u : Tensor, u.shape = [B, T, b.ln_dim] →
      ∃ z, parts.ResidualConnection 1
        (parts.ConvolutionModule.forward b.conv_module S mode (shiftR r 2)) u = some z ∧
        z.shape = u.shape := by
    intro u hu
    obtain ⟨v, hv, hsv⟩ := parts_conv_shape b.conv_module S mode (shiftR r 2) u B T
      hodd (by rw [hconv]; exact hd) hT (by rw [hu, hconv])
    exact resCon_shape 1 _ u v hv (by rw [hsv, hconv, hu])
  have ffT : ∀ (m : parts.FeedForwardNet) (k : Nat) (u : Tensor),
      m.in_feats = b.ln_dim → m.out_feats = b.ln_dim → u.shape = [B, T, b.ln_dim] →
      ∃ z, parts.ResidualConnection (1 / 2) (m.forward S mode (shiftR r k)) u = some z ∧
        z.shape = u.shape := by
    intro m k u hi ho hu
    obtain ⟨v, hv, hsv⟩ := ffn_shape m S mode (shiftR r k) u B T (by rw [hu, hi])
    exact resCon_shape (1 / 2) _ u v hv (by rw [hsv, ho, hu])
  obtain ⟨x1, h1, hs1⟩ := ffT b.ff1 0 x hff1i hff1o hx
  have hs1' : x1.shape = [B, T, b.ln_dim] := by rw [hs1, hx]
  cases hcf : b.conv_first with
  | false =>
    obtain ⟨x3, h3, hs3⟩ := mhaStage_shape b S mode r x1 B T hmha hs1'
    have hs3' : x3.shape = [B, T, b.ln_dim] := by rw [hs3, hs1']
    obtain ⟨x4, h4, hs4⟩ := convT x3 hs3'
    have hs4' : x4.shape = [B, T, b.ln_dim] := by rw [hs4, hs3']
    obtain ⟨x5, h5, hs5⟩ := ffT b.ff2 6 x4 hff2i hff2o hs4'
    have hs5' : x5.shape = [B, T, b.ln_dim] := by rw [hs5, hs4']
    obtain ⟨y, hy, hsy⟩ := layerNorm_shape b.ln_dim normEps b.ln_w b.ln_b S x5
      (by rw [hs5']; rfl)
    refine ⟨y, ?_, by rw [hsy, hs5', hx]⟩
    simp [-one_div, parts.ConformerBlock.forward, hcf, h1, h3, h4, h5, hy]
  | true =>
    obtain ⟨x2, h2, hs2⟩ := convT x1 hs1'
    have hs2' : x2.shape = [B, T, b.ln_dim] := by rw [hs2, hs1']
    obtain ⟨x3, h3, hs3⟩ := mhaStage_shape b S mode r x2 B T hmha hs2'
    have hs3' : x3.shape = [B, T, b.ln_dim] := by rw [hs3, hs2']
    obtain ⟨x5, h5, hs5⟩ := ffT b.ff2 6 x3 hff2i hff2o hs3'
    have hs5' : x5.shape = [B, T, b.ln_dim] := by rw [hs5, hs3']
    obtain ⟨y, hy, hsy⟩ := layerNorm_shape b.ln_dim normEps b.ln_w b.ln_b S x5
      (by rw [hs5']; rfl)
    refine ⟨y, ?_, by rw [hsy, hs5', hx]⟩
    simp [-one_div, parts.ConformerBlock.forward, hcf, h1, h2, h3, h5, hy]

/-- C1: for every input tensor, `ConformerBlock.forward` with `conv_first =
false` computes in order the half-step feed-forward residual, the pre-normed
self-attention residual, the convolution residual, the second half-step
feed-forward residual, and the final normalization; with `conv_first = true`
the convolution residual runs before the self-attention residual and the rest
of the order is unchanged. -/
theorem c1_block_ordering (f1 f2 : parts.FeedForwardNet)
    (A : parts.MultiheadAttention) (C : parts.ConvolutionModule) (d : Nat)
    (lw lb : Nat → ℚ) (p : ℚ) (S : ScalarOps) (mode : Mode)
    (r : Nat → List Nat → Bool) (x : Tensor) :
    parts.ConformerBlock.forward ⟨false, f1, A, C, f2, d, lw, lb, p⟩ S mode r x =
      ((parts.ResidualConnection (1 / 2)
          (parts.FeedForwardNet.forward f1 S mode (shiftR r 0)) x).bind fun a =>
       (parts.ConformerBlock.mhaStage ⟨false, f1, A, C, f2, d, lw, lb, p⟩
          S mode r a).bind fun m =>
       (parts.ResidualConnection 1
          (parts.ConvolutionModule.forward C S mode (shiftR r 2)) m).bind fun c =>
       (parts.ResidualConnection (1 / 2)
          (parts.FeedForwardNet.forward f2 S mode (shiftR r 6)) c).bind fun e =>
       layerNorm d normEps lw lb S e) ∧
    parts.ConformerBlock.forward ⟨true, f1, A, C, f2, d, lw, lb, p⟩ S mode r x =
      ((parts.ResidualConnection (1 / 2)
          (parts.FeedForwardNet.forward f1 S mode (shiftR r 0)) x).bind fun a =>
       (parts.ResidualConnection 1
          (parts.ConvolutionModule.forward C S mode (shiftR r 2)) a).bind fun c =>
       (parts.ConformerBlock.mhaStage ⟨true, f1, A, C, f2, d, lw, lb, p⟩
          S mode r c).bind fun m =>
       (parts.ResidualConnection (1 / 2)
          (parts.FeedForwardNet.forward f2 S mode (shiftR r 6)) m).bind fun e =>
       layerNorm d normEps lw lb S e) :=
  ⟨rfl, rfl⟩

/-- C2: for every input of shape `[batch, time, encoder_dim]` with batch and
time at least 1 (and a valid configuration: positive `encoder_dim`, odd
depth-wise kernel), the output of `ConformerBlock.forward` exists and has
exactly the input's shape. -/
theorem c2_shape_preserved (cfg : parts.ConformerBlockCfg)
    (W : parts.ConformerBlockWeights) (S : ScalarOps) (mode : Mode)
    (r : Nat → List Nat → Bool) (B T : Nat) (x : Tensor)
    (hodd : cfg.dw_ksize % 2 = 1) (hd : 0 < cfg.encoder_dim) (hB : 0 < B)
    (hT : 0 < T) (hx : x.shape = [B, T, cfg.encoder_dim]) :
    ∃ y, (parts.mkConformerBlock cfg W).forward S mode r x = some y ∧
      y.shape = x.shape :=
  block_forward_shape (parts.mkConformerBlock cfg W) S mode r B T x rfl rfl rfl
    rfl rfl rfl hodd hd hT hx

/-- Witness for C2: a block with `encoder_dim = 4`, `attention_heads = 2`,
`depthwise_kernel_size = 3` preserves the shape of a `[1, 2, 4]` input. -/
theorem c2_shape_preserved_witness :
    cfg0.dw_ksize % 2 = 1 ∧ 0 < cfg0.encoder_dim ∧ 0 < 1 ∧ 0 < 2 ∧
    X2.shape = [1, 2, cfg0.encoder_dim] ∧
    ∃ y, (parts.mkConformerBlock cfg0 Wb0).forward S0 .eval r0 X2 = some y ∧
      y.shape = X2.shape :=
  ⟨by decide, by decide, by decide, by decide, rfl,
   c2_shape_preserved cfg0 Wb0 S0 .eval r0 1 2 X2 (by decide) (by decide)
     (by decide) (by decide) rfl⟩

/-- C3: the convolution sub-block draft of `src/conformer/convolution.py`
does not implement the claimed pipeline: its depth-wise convolution has the
hard-coded kernel size 1 (there is no `depthwise_kernel_size` parameter), its
first point-wise convolution outputs `out_channels` (here `encoder_dim =
144`, not `2 × encoder_dim`), and its forward pass fails on the repository's
own usage (a `[16, 144, 74]` channel-major input), because `LayerNorm 144`
rejects a last dimension of 74. -/
theorem c3_convolution_draft (W : conformer.ConvolutionModuleWeights)
    (S : ScalarOps) (mode : Mode) (r : Nat → List Nat → Bool) :
    (conformer.ConvolutionModule.init 144 144 1 0 W).dw_conv.kernel_size = 1 ∧
    (conformer.ConvolutionModule.init 144 144 1 0 W).point_wise1.out_channels = 144 ∧
    (conformer.ConvolutionModule.init 144 144 1 0 W).forward S mode r
      (zerosT [16, 144, 74]) = none :=
  ⟨rfl, rfl, rfl⟩

/-- C4: for every configuration whose `encoder_dim` is not evenly divisible
by `attention_heads`, constructing an encoder block fails with the
divisibility configuration error, and for every configuration whose
`depthwise_kernel_size` is even it fails with a configuration error — both at
construction time (the error is `init`'s result, so no block exists whose
forward could be called); a valid configuration (heads 4, kernel 31) still
constructs successfully. -/
theorem c4_construction_errors (cfg : parts.ConformerBlockCfg)
    (W : parts.ConformerBlockWeights) :
    (cfg.encoder_dim % cfg.attention_heads ≠ 0 →
      parts.ConformerBlock.init cfg W = .error .notDivisible) ∧
    (cfg.dw_ksize % 2 = 0 →
      ∃ e, parts.ConformerBlock.init cfg W = .error e) ∧
    ∃ blk, parts.ConformerBlock.init ⟨1 / 10, 4, 144, 1, 31, 4, 1, false⟩ W =
      .ok blk := by
  refine ⟨?_, ?_, ⟨_, rfl⟩⟩
  · intro h
    simp [parts.ConformerBlock.init, parts.MultiheadAttention.init, h, Except.bind]
  · intro h
    have hne : ¬ cfg.dw_ksize % 2 = 1 := by omega
    by_cases hm : 0 < cfg.attention_heads ∧
      cfg.encoder_dim % cfg.attention_heads = 0
    · exact ⟨.evenKernel, by
        simp [parts.ConformerBlock.init, parts.MultiheadAttention.init,
          parts.ConvolutionModule.init, hm, hne, Except.bind]⟩
    · exact ⟨.notDivisible, by
        simp [parts.ConformerBlock.init, parts.MultiheadAttention.init, hm,
          Except.bind]⟩

/-- Witness for C4 at the claim's example configurations: `encoder_dim =
144` with `attention_heads = 5` (not divisible) and `depthwise_kernel_size =
30` (even). -/
theorem c4_construction_errors_witness :
    parts.ConformerBlock.init ⟨1 / 10, 5, 144, 1, 31, 4, 1, false⟩ Wb0 =
      .error .notDivisible ∧
    ∃ e, parts.ConformerBlock.init ⟨1 / 10, 4, 144, 1, 30, 4, 1, false⟩ Wb0 =
      .error e :=
  ⟨(c4_construction_errors ⟨1 / 10, 5, 144, 1, 31, 4, 1, false⟩ Wb0).1 (by decide),
   (c4_construction_errors ⟨1 / 10, 4, 144, 1, 30, 4, 1, false⟩ Wb0).2.1 (by decide)⟩

/-- C5: in the self-attention sub-block, normalization is applied to the
input before the attention computation, the residual addition uses the
un-normalized input `x`, and the attention output re-enters at full strength
(the factor 1.0 is absorbed: the dropout output itself is added to `x`). -/
theorem c5_prenorm_attention (b : parts.ConformerBlock) (S : ScalarOps)
    (mode : Mode) (r : Nat → List Nat → Bool) (x : Tensor) :
    b.mhaStage S mode r x =
      (layerNorm b.ln_dim normEps b.ln_w b.ln_b S x).bind fun nx =>
      (parts.MultiheadAttention.forward b.mha mode (r 4) nx).bind fun out =>
      tadd x (dropoutT mode (r 5) b.dropout_p out) := by
  unfold parts.ConformerBlock.mhaStage
  simp [smul_one]

/-- C6: the residual gate computes `input + half_step * T(input)` for every
wrapped shape-preserving transformation, and with `half_step = 0` its output
equals its input exactly. -/
theorem c6_residual_gate (h' : ℚ) (T' : Tensor → Option Tensor) (x y : Tensor)
    (hT : T' x = some y) (hs : y.shape = x.shape) :
    parts.ResidualConnection h' T' x =
      some ⟨x.shape, fun i => x.data i + h' * y.data i⟩ ∧
    parts.ResidualConnection 0 T' x = some x := by
  constructor
  · simp [parts.ResidualConnection, hT, hs, addRaw, smul]
  · simp [parts.ResidualConnection, hT, hs, addRaw, smul]

/-- Witness for C6: the identity transformation on a concrete `[2, 3, 4]`
tensor, with half-steps 1/2 and 0. -/
theorem c6_residual_gate_witness :
    parts.ResidualConnection (1 / 2) some X0 =
      some ⟨X0.shape, fun i => X0.data i + (1 / 2) * X0.data i⟩ ∧
    parts.ResidualConnection 0 some X0 = some X0 :=
  c6_residual_gate (1 / 2) some X0 X0 rfl rfl

/-- C7: in eval (inference) mode the forward pass of the encoder block does
not depend on the random masks at all: two calls with identical parameters
and identical input yield identical output. -/
theorem c7_eval_deterministic (b : parts.ConformerBlock) (S : ScalarOps)
    (r1 r2 : Nat → List Nat → Bool) (x : Tensor) :
    b.forward S .eval r1 x = b.forward S .eval r2 x := rfl

/-- C8: the subsampler of `src/conformer/convolution.py` is built from
`nn.Conv1d` layers, which reject the claimed rank-4 input
`[batch, 1, time, frequency_bins]`: the forward pass fails on a
`[16, 1, 100, 81]` input for every weight instantiation. -/
theorem c8_subsampler_rejects_rank4 (m : conformer.ConvSubSampling) :
    m.forward (zerosT [16, 1, 100, 81]) = none := rfl

/-- C9: `ConvolutionModule.forward` returns `x + pipeline(x)` (the residual
addition is inside the module), so wrapping it in a residual connection with
`half_step = 1.0` produces `x + (x + pipeline(x))` — the input is added
twice. -/
theorem c9_double_residual (m : conformer.ConvolutionModule) (S : ScalarOps)
    (mode : Mode) (r : Nat → List Nat → Bool) (x y : Tensor)
    (hc : m.conv_module S mode r x = some y) (hs : y.shape = x.shape) :
    m.forward S mode r x = some (addRaw x y) ∧
    parts.ResidualConnection 1 (m.forward S mode r) x =
      some (addRaw x (addRaw x y)) := by
  have h1 : m.forward S mode r x = some (addRaw x y) := by
    simp [conformer.ConvolutionModule.forward, hc, tadd, hs]
  refine ⟨h1, ?_⟩
  simp [parts.ResidualConnection, h1, addRaw_shape, smul_one]

/-- Witness for C9: a concrete convolution module (`in = out = 6`, padding 1)
whose pipeline succeeds on a `[1, 6, 6]` input. -/
theorem c9_double_residual_witness :
    ∃ y, conformer.ConvolutionModule.conv_module M9 S0 .eval r0 X9 = some y ∧
      y.shape = X9.shape ∧
      conformer.ConvolutionModule.forward M9 S0 .eval r0 X9 = some (addRaw X9 y) ∧
      parts.ResidualConnection 1 (conformer.ConvolutionModule.forward M9 S0 .eval r0)
        X9 = some (addRaw X9 (addRaw X9 y)) := by
  have h : (conformer.ConvolutionModule.conv_module M9 S0 .eval r0 X9).isSome = true := rfl
  have hc : conformer.ConvolutionModule.conv_module M9 S0 .eval r0 X9 =
      some ((conformer.ConvolutionModule.conv_module M9 S0 .eval r0 X9).get h) :=
    (Option.some_get h).symm
  have hs : ((conformer.ConvolutionModule.conv_module M9 S0 .eval r0 X9).get h).shape =
      X9.shape := rfl
  obtain ⟨h1, h2⟩ := c9_double_residual M9 S0 .eval r0 X9 _ hc hs
  exact ⟨_, hc, hs, h1, h2⟩

/-- C10: the normalization applied before multi-head attention and the final
normalization of the block's output are the same layer-norm instance — the
forward pass equals the two-normalization generalization with both slots
filled by the block's single `layer_norm` (identical scale and shift
parameters). -/
theorem c10_shared_layernorm (b : parts.ConformerBlock) (S : ScalarOps)
    (mode : Mode) (r : Nat → List Nat → Bool) (x : Tensor) :
    b.forward S mode r x =
      b.forwardNorms (layerNorm b.ln_dim normEps b.ln_w b.ln_b S)
        (layerNorm b.ln_dim normEps b.ln_w b.ln_b S) S mode r x := rfl
